import Mathlib

/-!
Shallow embedding of the db_api repository core (src/app/crud.py,
src/app/routes.py, src/app/models.py, src/app/schemas.py,
src/app/database.py) and proofs about it.

Modelling conventions:
- A database table is a list of rows in storage order (SQLite returns rows
  in rowid order when no explicit ORDER BY is given); `offset`/`limit`
  become `List.drop`/`List.take`.
- Timestamps are abstract ticks (`Nat`); `updated_at` is `Option Nat`,
  absent (`none`) until the first effective mutation, matching
  `Column(DateTime, onupdate=func.now())` in models.py which is populated
  only when an UPDATE statement actually touches the row.
- A pydantic update schema with `exclude_unset=True` dumping is a record of
  `Option` fields: `none` means the field was absent from the request body,
  `some v` means it was explicitly supplied with value `v`.
- SQLAlchemy emits an UPDATE on commit only when some attribute has a net
  value change (History.from_scalar_attribute compares old and new values);
  hence `updated_at` is refreshed exactly when the applied patch changes at
  least one column value.
-/

/-- User row (src/app/models.py, class User). -/
structure User where
  id : Nat
  username : String
  email : String
  full_name : Option String
  is_active : Bool
  created_at : Nat
  updated_at : Option Nat
deriving Repr, DecidableEq

/-- Item row (src/app/models.py, class Item). Price is in minor currency
units (cents), stored as an integer. -/
structure Item where
  id : Nat
  title : String
  description : Option String
  price : Int
  is_available : Bool
  created_at : Nat
  updated_at : Option Nat
deriving Repr, DecidableEq

/-- UserCreate schema (src/app/schemas.py): all fields supplied. -/
structure UserCreate where
  username : String
  email : String
  full_name : Option String
  is_active : Bool := true
deriving Repr, DecidableEq

/-- ItemCreate schema (src/app/schemas.py): all fields supplied. -/
structure ItemCreate where
  title : String
  description : Option String
  price : Int
  is_available : Bool := true
deriving Repr, DecidableEq

/-- UserUpdate schema (src/app/schemas.py): every field optional; `none`
models a field absent from the request body (pydantic unset). For the
nullable column `full_name` an explicitly supplied null is `some none`. -/
structure UserUpdate where
  username : Option String := none
  email : Option String := none
  full_name : Option (Option String) := none
  is_active : Option Bool := none
deriving Repr, DecidableEq

/-- ItemUpdate schema (src/app/schemas.py): every field optional. -/
structure ItemUpdate where
  title : Option String := none
  description : Option (Option String) := none
  price : Option Int := none
  is_available : Option Bool := none
deriving Repr, DecidableEq

/-- The empty user patch: a request body supplying no field at all. -/
def emptyUserUpdate : UserUpdate := {}

/-- The empty item patch: a request body supplying no field at all. -/
def emptyItemUpdate : ItemUpdate := {}

/-- The setattr loop of CRUDBase.update (src/app/crud.py lines 39-47):
`obj_in.model_dump(exclude_unset=True)` yields exactly the explicitly
supplied fields, and each of them is assigned onto the row; absent fields
are left untouched. -/
def applyUserPatch (e : User) (p : UserUpdate) : User :=
  { e with
    username := p.username.getD e.username
    email := p.email.getD e.email
    full_name := p.full_name.getD e.full_name
    is_active := p.is_active.getD e.is_active }

/-- The setattr loop of CRUDBase.update for Item rows. -/
def applyItemPatch (e : Item) (p : ItemUpdate) : Item :=
  { e with
    title := p.title.getD e.title
    description := p.description.getD e.description
    price := p.price.getD e.price
    is_available := p.is_available.getD e.is_available }

/-- CRUDBase.update on a User row (src/app/crud.py lines 39-47), including
the commit: the `onupdate=func.now()` column default (src/app/models.py
line 18) fires exactly when the flush produces an UPDATE statement, which
happens exactly when some assigned attribute has a net value change. -/
def CRUDBase.updateUser (now : Nat) (e : User) (p : UserUpdate) : User :=
  let e' := applyUserPatch e p
  if e' = e then e' else { e' with updated_at := some now }

/-- CRUDBase.update on an Item row, with the same commit semantics. -/
def CRUDBase.updateItem (now : Nat) (e : Item) (p : ItemUpdate) : Item :=
  let e' := applyItemPatch e p
  if e' = e then e' else { e' with updated_at := some now }

/-- C1: for every existing entity and every update input, the update
operation applies exactly the fields explicitly present in the input, and
every field omitted from the input retains its prior value. Stated over
both entity types for every updatable field, together with the
store-assigned fields `id` and `created_at`, which no input can carry. -/
theorem C1_update_partial_semantics :
    (∀ (now : Nat) (e : User) (p : UserUpdate),
      (CRUDBase.updateUser now e p).id = e.id ∧
      (CRUDBase.updateUser now e p).created_at = e.created_at ∧
      (CRUDBase.updateUser now e p).username = p.username.getD e.username ∧
      (CRUDBase.updateUser now e p).email = p.email.getD e.email ∧
      (CRUDBase.updateUser now e p).full_name = p.full_name.getD e.full_name ∧
      (CRUDBase.updateUser now e p).is_active = p.is_active.getD e.is_active) ∧
    (∀ (now : Nat) (e : Item) (p : ItemUpdate),
      (CRUDBase.updateItem now e p).id = e.id ∧
      (CRUDBase.updateItem now e p).created_at = e.created_at ∧
      (CRUDBase.updateItem now e p).title = p.title.getD e.title ∧
      (CRUDBase.updateItem now e p).description = p.description.getD e.description ∧
      (CRUDBase.updateItem now e p).price = p.price.getD e.price ∧
      (CRUDBase.updateItem now e p).is_available = p.is_available.getD e.is_available) := by
  constructor
  · intro now e p
    unfold CRUDBase.updateUser
    dsimp only
    split <;> simp [applyUserPatch]
  · intro now e p
    unfold CRUDBase.updateItem
    dsimp only
    split <;> simp [applyItemPatch]

/-- C7 counterexample: on a concrete user row with no prior mutation, an
update with the empty input leaves the row entirely unchanged; in
particular the update timestamp is not refreshed to the call time (it stays
`none` instead of becoming `some 1`), because no UPDATE statement is
emitted for a row with no dirty attribute. -/
theorem C7_counterexample_empty_update_does_not_refresh_timestamp :
    CRUDBase.updateUser 1
        { id := 1, username := "alice", email := "a@x.io", full_name := none,
          is_active := true, created_at := 0, updated_at := none }
        emptyUserUpdate
      = { id := 1, username := "alice", email := "a@x.io", full_name := none,
          is_active := true, created_at := 0, updated_at := none } ∧
    (CRUDBase.updateUser 1
        { id := 1, username := "alice", email := "a@x.io", full_name := none,
          is_active := true, created_at := 0, updated_at := none }
        emptyUserUpdate).updated_at ≠ some 1 := by
  constructor
  · decide
  · decide

/-- C7 amended: an update with an empty input is a no-op on every field,
the update timestamp included — the timestamp refreshes only when some
applied field actually changes a value, and an empty input changes none. -/
theorem C7_amended_empty_update_is_total_noop :
    (∀ (now : Nat) (e : User), CRUDBase.updateUser now e emptyUserUpdate = e) ∧
    (∀ (now : Nat) (e : Item), CRUDBase.updateItem now e emptyItemUpdate = e) := by
  constructor
  · intro now e
    unfold CRUDBase.updateUser
    have h : applyUserPatch e emptyUserUpdate = e := rfl
    rw [h]
    simp
  · intro now e
    unfold CRUDBase.updateItem
    have h : applyItemPatch e emptyItemUpdate = e := rfl
    rw [h]
    simp

/-- CRUDBase.get (src/app/crud.py lines 22-24): primary-key lookup on the
users table. -/
def CRUDBase.getUser (db : List User) (uid : Nat) : Option User :=
  db.find? (fun u => u.id == uid)

/-- CRUDBase.get for the items table. -/
def CRUDBase.getItem (db : List Item) (iid : Nat) : Option Item :=
  db.find? (fun i => i.id == iid)

/-- CRUDBase.get_multi (src/app/crud.py lines 26-28): pagination by
`offset(skip).limit(limit)` over the rows in storage order. -/
def CRUDBase.get_multi {α : Type} (db : List α) (skip limit : Nat) : List α :=
  (db.drop skip).take limit

/-- CRUDBase.delete (src/app/crud.py lines 49-55): look the row up by
primary key; when present remove it and return it, otherwise return
nothing and leave the table unchanged. -/
def CRUDBase.deleteUser (db : List User) (uid : Nat) : Option User × List User :=
  match db.find? (fun u => u.id == uid) with
  | some u => (some u, db.filter (fun r => !(r.id == uid)))
  | none => (none, db)

/-- CRUDUser.get_by_email (src/app/crud.py lines 61-63). -/
def CRUDUser.get_by_email (db : List User) (e : String) : Option User :=
  db.find? (fun u => u.email == e)

/-- CRUDUser.get_by_username (src/app/crud.py lines 65-67). -/
def CRUDUser.get_by_username (db : List User) (n : String) : Option User :=
  db.find? (fun u => u.username == n)

/-- SQLite rowid assignment for an INTEGER PRIMARY KEY insert: one more
than the largest id currently in the table. -/
def nextUserId (db : List User) : Nat :=
  (db.map User.id).foldr Nat.max 0 + 1

/-- CRUDBase.create for User (src/app/crud.py lines 30-37): build the row
from all fields of the input, let the store assign id and creation
timestamp, append it. -/
def CRUDBase.createUser (now : Nat) (db : List User) (inp : UserCreate) : User × List User :=
  let u : User :=
    { id := nextUserId db, username := inp.username, email := inp.email,
      full_name := inp.full_name, is_active := inp.is_active,
      created_at := now, updated_at := none }
  (u, db ++ [u])

/-- Field carried by a uniqueness-conflict error. -/
inductive ConflictField
  | email
  | username
deriving Repr, DecidableEq

/-- Typed errors surfaced by the user routes: 404 and the two 400
conflicts of src/app/routes.py. -/
inductive ApiError
  | notFound
  | conflict (f : ConflictField)
deriving Repr, DecidableEq

/-- routes.create_user (src/app/routes.py lines 18-32): reject when any
user already has the email, then when any user already has the username,
otherwise insert. On rejection the table is returned unchanged. -/
def routes.create_user (now : Nat) (db : List User) (inp : UserCreate) :
    Except ApiError User × List User :=
  if (CRUDUser.get_by_email db inp.email).isSome then
    (Except.error (ApiError.conflict ConflictField.email), db)
  else if (CRUDUser.get_by_username db inp.username).isSome then
    (Except.error (ApiError.conflict ConflictField.username), db)
  else
    let r := CRUDBase.createUser now db inp
    (Except.ok r.1, r.2)

/-- C2: creating a user whose email collides with any existing user fails
with Conflict(email) and inserts nothing, with no condition on the
username (so the email check runs first and wins when both fields
collide); when the email is free and the username collides, creation fails
with Conflict(username) and inserts nothing. -/
theorem C2_create_user_conflict_checks :
    ∀ (now : Nat) (db : List User) (inp : UserCreate),
      ((∃ u ∈ db, u.email = inp.email) →
        routes.create_user now db inp
          = (Except.error (ApiError.conflict ConflictField.email), db)) ∧
      ((∀ u ∈ db, u.email ≠ inp.email) → (∃ u ∈ db, u.username = inp.username) →
        routes.create_user now db inp
          = (Except.error (ApiError.conflict ConflictField.username), db)) := by
  intro now db inp
  constructor
  · rintro ⟨u, hu, he⟩
    have h1 : (CRUDUser.get_by_email db inp.email).isSome :=
      List.find?_isSome.mpr ⟨u, hu, by simp [he]⟩
    simp [routes.create_user, h1]
  · intro hfree
    rintro ⟨u, hu, hn⟩
    have h1 : CRUDUser.get_by_email db inp.email = none :=
      List.find?_eq_none.mpr (fun x hx => by simp [hfree x hx])
    have h2 : (CRUDUser.get_by_username db inp.username).isSome :=
      List.find?_isSome.mpr ⟨u, hu, by simp [hn]⟩
    simp [routes.create_user, h1, h2]

/-- C2 witness: in a table holding alice, creating bob with the email of
alice fails with Conflict(email) and leaves the table unchanged, and
creating a second alice with a fresh email fails with Conflict(username)
and leaves the table unchanged. -/
theorem C2_create_user_conflict_checks_witness :
    routes.create_user 1
        [{ id := 1, username := "alice", email := "a@x.io", full_name := none,
           is_active := true, created_at := 0, updated_at := none }]
        { username := "bob", email := "a@x.io", full_name := none, is_active := true }
      = (Except.error (ApiError.conflict ConflictField.email),
         [{ id := 1, username := "alice", email := "a@x.io", full_name := none,
            is_active := true, created_at := 0, updated_at := none }]) ∧
    routes.create_user 1
        [{ id := 1, username := "alice", email := "a@x.io", full_name := none,
           is_active := true, created_at := 0, updated_at := none }]
        { username := "alice", email := "b@x.io", full_name := none, is_active := true }
      = (Except.error (ApiError.conflict ConflictField.username),
         [{ id := 1, username := "alice", email := "a@x.io", full_name := none,
            is_active := true, created_at := 0, updated_at := none }]) :=
  ⟨(C2_create_user_conflict_checks 1 _ _).1
      ⟨_, List.mem_singleton.mpr rfl, rfl⟩,
   (C2_create_user_conflict_checks 1 _ _).2
      (by decide) ⟨_, List.mem_singleton.mpr rfl, rfl⟩⟩

/-- C3: deleting a present record removes it and returns the value that
existed immediately before removal; afterwards a get of the same id finds
nothing, and a second delete with the same id also finds nothing and
changes nothing. -/
theorem C3_delete_then_get_and_redelete :
    ∀ (db : List User) (uid : Nat) (u : User),
      CRUDBase.getUser db uid = some u →
      (CRUDBase.deleteUser db uid).1 = some u ∧
      CRUDBase.getUser (CRUDBase.deleteUser db uid).2 uid = none ∧
      (CRUDBase.deleteUser (CRUDBase.deleteUser db uid).2 uid).1 = none ∧
      (CRUDBase.deleteUser (CRUDBase.deleteUser db uid).2 uid).2
        = (CRUDBase.deleteUser db uid).2 := by
  intro db uid u h
  have hfind : db.find? (fun r => r.id == uid) = some u := h
  have hgone : ∀ l : List User,
      (l.filter (fun r => !(r.id == uid))).find? (fun r => r.id == uid) = none := by
    intro l
    apply List.find?_eq_none.mpr
    intro x hx
    have hx2 := (List.mem_filter.mp hx).2
    simp at hx2 ⊢
    exact hx2
  have hdel : CRUDBase.deleteUser db uid
      = (some u, db.filter (fun r => !(r.id == uid))) := by
    simp [CRUDBase.deleteUser, hfind]
  have hdel2 : CRUDBase.deleteUser (db.filter (fun r => !(r.id == uid))) uid
      = (none, db.filter (fun r => !(r.id == uid))) := by
    simp [CRUDBase.deleteUser, hgone db]
  refine ⟨by rw [hdel], ?_, ?_, ?_⟩
  · rw [hdel]
    exact hgone db
  · rw [hdel, hdel2]
  · rw [hdel, hdel2]

/-- C3 witness: delete of the only row in a one-row table returns that
row, a get afterwards finds nothing, and a second delete finds nothing. -/
theorem C3_delete_then_get_and_redelete_witness :
    CRUDBase.getUser
        [{ id := 1, username := "alice", email := "a@x.io", full_name := none,
           is_active := true, created_at := 0, updated_at := none }] 1
      = some { id := 1, username := "alice", email := "a@x.io", full_name := none,
               is_active := true, created_at := 0, updated_at := none } ∧
    (CRUDBase.deleteUser
        [{ id := 1, username := "alice", email := "a@x.io", full_name := none,
           is_active := true, created_at := 0, updated_at := none }] 1).1
      = some { id := 1, username := "alice", email := "a@x.io", full_name := none,
               is_active := true, created_at := 0, updated_at := none } :=
  ⟨by decide,
   (C3_delete_then_get_and_redelete _ 1 _ (by decide)).1⟩

/-- C4: over a store in a fixed enumeration order (the model is
deterministic, so repeated calls with identical arguments agree
definitionally), every page is an order-consistent slice of the store, the
pages skip 0 and skip 2 of size 2 are disjoint when the rows are distinct,
and their concatenation is the page of size 4. -/
theorem C4_pagination_slices :
    ∀ {α : Type} (db : List α), db.Nodup →
      (∀ skip limit : Nat, (CRUDBase.get_multi db skip limit).Sublist db) ∧
      CRUDBase.get_multi db 0 2 ++ CRUDBase.get_multi db 2 2
        = CRUDBase.get_multi db 0 4 ∧
      (∀ x, x ∈ CRUDBase.get_multi db 0 2 → x ∉ CRUDBase.get_multi db 2 2) := by
  intro α db hnd
  refine ⟨?_, ?_, ?_⟩
  · intro skip limit
    exact ((db.drop skip).take_sublist limit).trans (db.drop_sublist skip)
  · simp only [CRUDBase.get_multi, List.drop_zero]
    rw [show (4 : Nat) = 2 + 2 from rfl, List.take_add]
  · intro x h1 h2
    have hd : List.Disjoint (db.take 2) (db.drop 2) :=
      List.disjoint_take_drop hnd (Nat.le_refl 2)
    have h1' : x ∈ db.take 2 := by
      simpa [CRUDBase.get_multi] using h1
    have h2' : x ∈ db.drop 2 :=
      List.take_subset 2 _ (by simpa [CRUDBase.get_multi] using h2)
    exact hd h1' h2'

/-- C4 witness: on the five-element store 0..4, the two pages of size 2
concatenate to the page of size 4. -/
theorem C4_pagination_slices_witness :
    ([0, 1, 2, 3, 4] : List Nat).Nodup ∧
    CRUDBase.get_multi ([0, 1, 2, 3, 4] : List Nat) 0 2
        ++ CRUDBase.get_multi ([0, 1, 2, 3, 4] : List Nat) 2 2
      = CRUDBase.get_multi ([0, 1, 2, 3, 4] : List Nat) 0 4 :=
  ⟨by decide, (C4_pagination_slices [0, 1, 2, 3, 4] (by decide)).2.1⟩

/-- ASCII lower-casing: the only case folding the SQLite LIKE operator
applies by default. -/
def asciiLower (c : Char) : Char :=
  if 'A' ≤ c ∧ c ≤ 'Z' then Char.ofNat (c.toNat + 32) else c

/-- Character comparison of the SQLite LIKE operator: case-insensitive on
the ASCII letters, exact elsewhere. -/
def likeEqChar (p c : Char) : Bool :=
  asciiLower p == asciiLower c

/-- Fuelled SQLite LIKE pattern matcher over character lists: percent
matches any sequence, underscore any single character, every other pattern
character matches ASCII-case-insensitively. Each recursive call shrinks
`pattern.length + subject.length`, so the fuel used by `likeMatch` below
is always sufficient; the fuel only makes the definition structurally
recursive. -/
def likeMatchAux : Nat → List Char → List Char → Bool
  | 0, _, _ => false
  | _ + 1, [], [] => true
  | _ + 1, [], _ :: _ => false
  | fuel + 1, '%' :: ps, [] => likeMatchAux fuel ps []
  | fuel + 1, '%' :: ps, c :: cs =>
      likeMatchAux fuel ps (c :: cs) || likeMatchAux fuel ('%' :: ps) cs
  | _ + 1, '_' :: _, [] => false
  | fuel + 1, '_' :: ps, _ :: cs => likeMatchAux fuel ps cs
  | _ + 1, _ :: _, [] => false
  | fuel + 1, p :: ps, c :: cs => likeEqChar p c && likeMatchAux fuel ps cs

/-- SQLite LIKE evaluation of pattern `p` against subject `s`. -/
def likeMatch (p s : List Char) : Bool :=
  likeMatchAux (p.length + s.length + 1) p s

/-- The title filter of CRUDItem.search_by_title:
`Item.title.contains(t)` compiles to the SQL predicate
`title LIKE '%' || t || '%'` (no escape character), evaluated by the
SQLite backend configured as the default in src/config.py. -/
def title_contains (title t : String) : Bool :=
  likeMatch ('%' :: (t.data ++ ['%'])) title.data

/-- CRUDItem.search_by_title (src/app/crud.py lines 95-105): filter by
title containment, then paginate. -/
def CRUDItem.search_by_title (db : List Item) (t : String) (skip limit : Nat) : List Item :=
  CRUDBase.get_multi (db.filter (fun i => title_contains i.title t)) skip limit

/-- CRUDItem.get_available_items (src/app/crud.py lines 83-93): filter by
the availability flag, then paginate. -/
def CRUDItem.get_available_items (db : List Item) (skip limit : Nat) : List Item :=
  CRUDBase.get_multi (db.filter (fun i => i.is_available)) skip limit

/-- Python truthiness of the optional `search: str = None` query
parameter: true exactly for a supplied, non-empty string. -/
def pyTruthy : Option String → Bool
  | none => false
  | some s => !s.isEmpty

/-- routes.read_items (src/app/routes.py lines 103-118): a truthy search
text dispatches to search_by_title; otherwise the availability flag picks
between get_available_items and get_multi. -/
def routes.read_items (db : List Item) (skip limit : Nat)
    (available_only : Bool) (search : Option String) : List Item :=
  if pyTruthy search then CRUDItem.search_by_title db (search.getD "") skip limit
  else if available_only then CRUDItem.get_available_items db skip limit
  else CRUDBase.get_multi db skip limit

/-- The item of the spec scenario for title search. -/
def gamingLaptop : Item :=
  { id := 1, title := "Gaming Laptop", description := none, price := 149999,
    is_available := true, created_at := 0, updated_at := none }

/-- C5 counterexample: after creating the item titled Gaming Laptop, a
title search for laptop does return it, and so does a search for LAPTOP —
the configured SQLite backend evaluates LIKE case-insensitively on ASCII,
so the match is not exact-case containment. -/
theorem C5_counterexample_search_not_exact_case :
    CRUDItem.search_by_title [gamingLaptop] "laptop" 0 100 = [gamingLaptop] ∧
    CRUDItem.search_by_title [gamingLaptop] "LAPTOP" 0 100 = [gamingLaptop] := by
  constructor
  · decide
  · decide

/-- C5 amended: searchByTitle performs ASCII-case-insensitive substring
containment (SQL LIKE on the configured SQLite backend): searches for
laptop, LAPTOP and Laptop all return the Gaming Laptop item, while a
non-substring such as phone does not. -/
theorem C5_amended_search_case_insensitive_containment :
    CRUDItem.search_by_title [gamingLaptop] "laptop" 0 100 = [gamingLaptop] ∧
    CRUDItem.search_by_title [gamingLaptop] "LAPTOP" 0 100 = [gamingLaptop] ∧
    CRUDItem.search_by_title [gamingLaptop] "Laptop" 0 100 = [gamingLaptop] ∧
    CRUDItem.search_by_title [gamingLaptop] "phone" 0 100 = [] := by
  refine ⟨?_, ?_, ?_, ?_⟩ <;> decide

/-- C6: a supplied non-empty search text dispatches the item listing to
search_by_title whatever the availability flag says (the flag does not
appear in the result), and with no search text the availability flag picks
between get_available_items and the unrestricted get_multi. -/
theorem C6_search_takes_precedence :
    (∀ (db : List Item) (skip limit : Nat) (available_only : Bool) (s : String),
      s ≠ "" →
      routes.read_items db skip limit available_only (some s)
        = CRUDItem.search_by_title db s skip limit) ∧
    (∀ (db : List Item) (skip limit : Nat) (available_only : Bool),
      routes.read_items db skip limit available_only none
        = if available_only then CRUDItem.get_available_items db skip limit
          else CRUDBase.get_multi db skip limit) := by
  constructor
  · intro db skip limit available_only s hs
    have hne : s.isEmpty = false := by
      apply Bool.eq_false_iff.mpr
      intro hb
      exact hs ((String.isEmpty_iff s).mp hb)
    simp [routes.read_items, pyTruthy, hne]
  · intro db skip limit available_only
    simp [routes.read_items, pyTruthy]

/-- C6 witness: on a one-item store whose item is unavailable, searching
for a non-empty text with the availability flag raised still returns the
search result, not the availability filter. -/
theorem C6_search_takes_precedence_witness :
    ("Lap" ≠ "") ∧
    routes.read_items [gamingLaptop] 0 100 true (some "Lap")
      = CRUDItem.search_by_title [gamingLaptop] "Lap" 0 100 ∧
    routes.read_items [gamingLaptop] 0 100 true none
      = (if true then CRUDItem.get_available_items [gamingLaptop] 0 100
         else CRUDBase.get_multi [gamingLaptop] 0 100) :=
  ⟨by decide,
   (C6_search_takes_precedence.1 [gamingLaptop] 0 100 true "Lap" (by decide)),
   (C6_search_takes_precedence.2 [gamingLaptop] 0 100 true)⟩

/-- C10: a supplied empty search text is falsy in Python, so the item
listing treats it exactly as no search text: search_by_title is bypassed
and the availability flag picks the branch. -/
theorem C10_empty_search_treated_as_no_search :
    ∀ (db : List Item) (skip limit : Nat) (available_only : Bool),
      routes.read_items db skip limit available_only (some "")
        = routes.read_items db skip limit available_only none ∧
      routes.read_items db skip limit available_only (some "")
        = (if available_only then CRUDItem.get_available_items db skip limit
           else CRUDBase.get_multi db skip limit) := by
  intro db skip limit available_only
  have h0 : ("" : String).isEmpty = true := rfl
  constructor
  · simp [routes.read_items, pyTruthy, h0]
  · simp [routes.read_items, pyTruthy, h0]

/-- Email conflict guard of routes.update_user (src/app/routes.py lines
65-71): `if user.email and user.email != db_user.email` followed by the
registry lookup — the conflict fires only for a supplied, truthy email
that differs from the current one and is already held by some user. -/
def userEmailConflict (db : List User) (db_user : User) (p : UserUpdate) : Bool :=
  match p.email with
  | none => false
  | some e => !e.isEmpty && e != db_user.email && (CRUDUser.get_by_email db e).isSome

/-- Username conflict guard of routes.update_user (src/app/routes.py lines
73-79), with the same shape as the email guard. -/
def userUsernameConflict (db : List User) (db_user : User) (p : UserUpdate) : Bool :=
  match p.username with
  | none => false
  | some n => !n.isEmpty && n != db_user.username && (CRUDUser.get_by_username db n).isSome

/-- routes.update_user (src/app/routes.py lines 59-82): 404 when the id is
absent, then the email guard, then the username guard, then the partial
update committed back to the table. -/
def routes.update_user (now : Nat) (db : List User) (user_id : Nat) (p : UserUpdate) :
    Except ApiError User × List User :=
  match CRUDBase.getUser db user_id with
  | none => (Except.error ApiError.notFound, db)
  | some db_user =>
    if userEmailConflict db db_user p then
      (Except.error (ApiError.conflict ConflictField.email), db)
    else if userUsernameConflict db db_user p then
      (Except.error (ApiError.conflict ConflictField.username), db)
    else
      let u' := CRUDBase.updateUser now db_user p
      (Except.ok u', db.map (fun r => if r.id == user_id then u' else r))

/-- C8: on user update, each conflict check runs only when the field is
present in the input and differs from the current value: an input whose
email equals the current email, or carries no email, can never produce the
email conflict (same for the username), and conversely an email or
username conflict implies the field was present and differed. -/
theorem C8_update_checks_only_changed_present_fields :
    ∀ (now : Nat) (db : List User) (uid : Nat) (p : UserUpdate) (u : User),
      CRUDBase.getUser db uid = some u →
      ((p.email = some u.email ∨ p.email = none) →
        (routes.update_user now db uid p).1
          ≠ Except.error (ApiError.conflict ConflictField.email)) ∧
      ((p.username = some u.username ∨ p.username = none) →
        (routes.update_user now db uid p).1
          ≠ Except.error (ApiError.conflict ConflictField.username)) ∧
      ((routes.update_user now db uid p).1
          = Except.error (ApiError.conflict ConflictField.email) →
        ∃ e, p.email = some e ∧ e ≠ u.email) ∧
      ((routes.update_user now db uid p).1
          = Except.error (ApiError.conflict ConflictField.username) →
        ∃ n, p.username = some n ∧ n ≠ u.username) := by
  intro now db uid p u h
  have hroute : routes.update_user now db uid p
      = (if userEmailConflict db u p then
           (Except.error (ApiError.conflict ConflictField.email), db)
         else if userUsernameConflict db u p then
           (Except.error (ApiError.conflict ConflictField.username), db)
         else
           (Except.ok (CRUDBase.updateUser now u p),
            db.map (fun r => if r.id == uid then CRUDBase.updateUser now u p else r))) := by
    simp [routes.update_user, h]
  refine ⟨?_, ?_, ?_, ?_⟩
  · intro hcase
    have hec : userEmailConflict db u p = false := by
      rcases hcase with hc | hc <;> simp [userEmailConflict, hc]
    rw [hroute, if_neg (by simp [hec])]
    split <;> simp
  · intro hcase
    have huc : userUsernameConflict db u p = false := by
      rcases hcase with hc | hc <;> simp [userUsernameConflict, hc]
    rw [hroute]
    split
    · simp
    · rw [if_neg (by simp [huc])]
      simp
  · intro hres
    rw [hroute] at hres
    by_cases hec : userEmailConflict db u p = true
    · cases hpe : p.email with
      | none => simp [userEmailConflict, hpe] at hec
      | some e =>
        simp [userEmailConflict, hpe] at hec
        exact ⟨e, rfl, hec.1.2⟩
    · rw [if_neg hec] at hres
      split at hres <;> simp at hres
  · intro hres
    rw [hroute] at hres
    split at hres
    · simp at hres
    · by_cases huc : userUsernameConflict db u p = true
      · cases hpn : p.username with
        | none => simp [userUsernameConflict, hpn] at huc
        | some n =>
          simp [userUsernameConflict, hpn] at huc
          exact ⟨n, rfl, huc.1.2⟩
      · rw [if_neg huc] at hres
        simp at hres

/-- C8 witness: updating alice while passing exactly her own current email
raises no email conflict even though that email is present in the table. -/
theorem C8_update_checks_witness :
    CRUDBase.getUser
        [{ id := 1, username := "alice", email := "a@x.io", full_name := none,
           is_active := true, created_at := 0, updated_at := none }] 1
      = some { id := 1, username := "alice", email := "a@x.io", full_name := none,
               is_active := true, created_at := 0, updated_at := none } ∧
    (routes.update_user 2
        [{ id := 1, username := "alice", email := "a@x.io", full_name := none,
           is_active := true, created_at := 0, updated_at := none }]
        1 { email := some "a@x.io" }).1
      ≠ Except.error (ApiError.conflict ConflictField.email) :=
  ⟨by decide,
   (C8_update_checks_only_changed_present_fields 2
      [{ id := 1, username := "alice", email := "a@x.io", full_name := none,
         is_active := true, created_at := 0, updated_at := none }]
      1 { email := some "a@x.io" }
      { id := 1, username := "alice", email := "a@x.io", full_name := none,
        is_active := true, created_at := 0, updated_at := none }
      (by decide)).1 (Or.inl rfl)⟩

/-- Module-level globals of src/app/database.py: `_engine` and
`_SessionLocal` (each abstracted to a numeric identity), together with
counts of how many times create_engine and sessionmaker have run in the
process. -/
structure DbGlobals where
  engine : Option Nat
  sessionLocal : Option Nat
  engineCreates : Nat
  sessionmakerCreates : Nat
deriving Repr, DecidableEq

/-- get_engine (src/app/database.py lines 16-27) as one sequential call
run to completion: test `_engine`, create and publish only when it is
unset, return the handle. -/
def get_engine (s : DbGlobals) : DbGlobals × Nat :=
  match s.engine with
  | some v => (s, v)
  | none =>
    ({ s with engine := some (s.engineCreates + 1),
              engineCreates := s.engineCreates + 1 },
     s.engineCreates + 1)

/-- get_session_local (src/app/database.py lines 30-34) as one sequential
call run to completion: test `_SessionLocal`; when it is unset, evaluate
`sessionmaker(..., bind=get_engine())` — the bind argument runs get_engine
first — then publish the factory; return it. -/
def get_session_local (s : DbGlobals) : DbGlobals × Nat :=
  match s.sessionLocal with
  | some v => (s, v)
  | none =>
    let s1 := (get_engine s).1
    ({ s1 with sessionLocal := some (s1.sessionmakerCreates + 1),
               sessionmakerCreates := s1.sessionmakerCreates + 1 },
     s1.sessionmakerCreates + 1)

/-- One completed sequential call into the persistence gateway: false is a
get_engine call, true is a get_session_local call. -/
def dbSeqCall (s : DbGlobals) : Bool → DbGlobals
  | false => (get_engine s).1
  | true => (get_session_local s).1

/-- A sequence of completed calls, each finishing before the next
begins. -/
def runDbSeqCalls (s : DbGlobals) : List Bool → DbGlobals
  | [] => s
  | c :: cs => runDbSeqCalls (dbSeqCall s c) cs

/-- The process start state: both globals unset, nothing created yet. -/
def dbStart : DbGlobals :=
  { engine := none, sessionLocal := none,
    engineCreates := 0, sessionmakerCreates := 0 }

/-- Program counter of one thread executing get_session_local, the
get_engine call nested in its `bind=get_engine()` argument included. Each
constructor is the next statement the thread will run against the shared
globals. -/
inductive SessionPC
  | slTest
  | engTest
  | engCreate
  | engAssign (v : Nat)
  | smCreate
  | slAssign (v : Nat)
  | done
deriving Repr, DecidableEq

/-- One small step of a thread inside get_session_local. The two None
tests, the create_engine call, the assignment to `_engine`, the
sessionmaker call and the assignment to `_SessionLocal` are all distinct
statements in the source, with no lock held anywhere. -/
def sessionThreadStep (s : DbGlobals) : SessionPC → DbGlobals × SessionPC
  | SessionPC.slTest =>
    if s.sessionLocal.isSome then (s, SessionPC.done) else (s, SessionPC.engTest)
  | SessionPC.engTest =>
    if s.engine.isSome then (s, SessionPC.smCreate) else (s, SessionPC.engCreate)
  | SessionPC.engCreate =>
    ({ s with engineCreates := s.engineCreates + 1 },
     SessionPC.engAssign (s.engineCreates + 1))
  | SessionPC.engAssign v => ({ s with engine := some v }, SessionPC.smCreate)
  | SessionPC.smCreate =>
    ({ s with sessionmakerCreates := s.sessionmakerCreates + 1 },
     SessionPC.slAssign (s.sessionmakerCreates + 1))
  | SessionPC.slAssign v => ({ s with sessionLocal := some v }, SessionPC.done)
  | SessionPC.done => (s, SessionPC.done)

/-- Two first request handlers calling get_session_local concurrently over
the shared globals. -/
structure SessionSys where
  st : DbGlobals
  t0 : SessionPC
  t1 : SessionPC
deriving Repr, DecidableEq

/-- Scheduler step: false steps thread 0, true steps thread 1. -/
def sessionSysStep (sys : SessionSys) : Bool → SessionSys
  | false =>
    let r := sessionThreadStep sys.st sys.t0
    { sys with st := r.1, t0 := r.2 }
  | true =>
    let r := sessionThreadStep sys.st sys.t1
    { sys with st := r.1, t1 := r.2 }

/-- Run a schedule from a system state. -/
def sessionRun (sys : SessionSys) : List Bool → SessionSys
  | [] => sys
  | b :: bs => sessionRun (sessionSysStep sys b) bs

/-- Process start: both globals unset and two first callers about to enter
get_session_local. -/
def sessionInit : SessionSys :=
  { st := dbStart, t0 := SessionPC.slTest, t1 := SessionPC.slTest }

/-- C9 counterexample: under the schedule where both first callers pass
the `_SessionLocal` test and the `_engine` test before either publishes a
handle, create_engine runs twice and sessionmaker runs twice — the
unguarded check-then-set of get_engine and get_session_local in
src/app/database.py initializes neither the engine nor the session
factory at most once under concurrent first callers. -/
theorem C9_counterexample_double_initialization :
    ¬ ((sessionRun sessionInit
          [false, true, false, true, false, false, false, false,
           true, true, true, true]).st.engineCreates ≤ 1) ∧
    ¬ ((sessionRun sessionInit
          [false, true, false, true, false, false, false, false,
           true, true, true, true]).st.sessionmakerCreates ≤ 1) := by
  constructor
  · decide
  · decide

/-- C9 amended: initialization of both the storage engine and the session
factory is lazy and happens at most once each for the process lifetime
when the first callers run sequentially, each call completing before the
next begins: across any sequence of completed get_engine and
get_session_local calls from process start, create_engine has run exactly
once as soon as any call has happened, and sessionmaker exactly once as
soon as any get_session_local call has happened; the exactly-once
guarantee does not extend to interleaved concurrent first callers. -/
theorem C9_amended_lazy_exactly_once_sequential :
    ∀ calls : List Bool,
      (runDbSeqCalls dbStart calls).engineCreates
        = (if calls.isEmpty then 0 else 1) ∧
      (runDbSeqCalls dbStart calls).sessionmakerCreates
        = (if calls.contains true then 1 else 0) := by
  have hfull : ∀ (cs : List Bool) (v w c d : Nat),
      runDbSeqCalls
          { engine := some v, sessionLocal := some w,
            engineCreates := c, sessionmakerCreates := d } cs
        = { engine := some v, sessionLocal := some w,
            engineCreates := c, sessionmakerCreates := d } := by
    intro cs
    induction cs with
    | nil => intro v w c d; rfl
    | cons b bs ih =>
      intro v w c d
      cases b <;>
        simpa [runDbSeqCalls, dbSeqCall, get_engine, get_session_local] using ih v w c d
  have heng : ∀ (cs : List Bool) (v c d : Nat),
      (runDbSeqCalls
          { engine := some v, sessionLocal := none,
            engineCreates := c, sessionmakerCreates := d } cs).engineCreates = c ∧
      (runDbSeqCalls
          { engine := some v, sessionLocal := none,
            engineCreates := c, sessionmakerCreates := d } cs).sessionmakerCreates
        = (if cs.contains true then d + 1 else d) := by
    intro cs
    induction cs with
    | nil => intro v c d; simp [runDbSeqCalls]
    | cons b bs ih =>
      intro v c d
      cases b with
      | false =>
        have h1 : dbSeqCall
            { engine := some v, sessionLocal := none,
              engineCreates := c, sessionmakerCreates := d } false
            = { engine := some v, sessionLocal := none,
                engineCreates := c, sessionmakerCreates := d } := rfl
        simpa [runDbSeqCalls, h1, List.contains_cons] using ih v c d
      | true =>
        have h1 : dbSeqCall
            { engine := some v, sessionLocal := none,
              engineCreates := c, sessionmakerCreates := d } true
            = { engine := some v, sessionLocal := some (d + 1),
                engineCreates := c, sessionmakerCreates := d + 1 } := rfl
        simp [runDbSeqCalls, h1, hfull, List.contains_cons]
  intro calls
  cases calls with
  | nil => exact ⟨rfl, rfl⟩
  | cons b bs =>
    cases b with
    | false =>
      have h1 : dbSeqCall dbStart false
          = { engine := some 1, sessionLocal := none,
              engineCreates := 1, sessionmakerCreates := 0 } := rfl
      have h2 := heng bs 1 1 0
      constructor
      · simpa [runDbSeqCalls, h1] using h2.1
      · have h3 := h2.2
        simp only [runDbSeqCalls, h1, List.contains_cons, List.isEmpty_cons] at h3 ⊢
        simpa using h3
    | true =>
      have h1 : dbSeqCall dbStart true
          = { engine := some 1, sessionLocal := some 1,
              engineCreates := 1, sessionmakerCreates := 1 } := rfl
      constructor
      · simp [runDbSeqCalls, h1, hfull]
      · simp [runDbSeqCalls, h1, hfull, List.contains_cons]
